import Mathlib

/-!
# Verification of the VibeClaw AI credential store, OAuth engine, gateway and supervisor

A shallow embedding of the OAuth authorization/refresh engine
(`packages/auth/src/oauth.ts`, `store.ts`, `types.ts`, `constants.ts`),
the built-in protocol gateway and process supervisor (`ProxyManager`),
and theorems settling the specification claims about them.

Effectful pieces are modelled by explicit state passing:
* the on-disk credential files are a `StoreState` value threaded through
  the store operations;
* network fetches (token refresh, token exchange, health probe) are
  oracle arguments describing the one observable outcome of the call;
* `Date.now()` is an explicit integer argument (epoch milliseconds).
-/

namespace VibeClaw

namespace Auth

/-- Supported auth providers (`AuthProvider` in `constants.ts`). -/
inductive AuthProvider where
  | codex
  | claude
  | gemini
deriving DecidableEq, Repr

/-- A stored OAuth token bundle (`StoredTokens` in `types.ts`).
`expires_at` is absolute epoch milliseconds; JavaScript numbers are
modelled as integers. -/
structure StoredTokens where
  access_token : String
  refresh_token : Option String := none
  id_token : Option String := none
  expires_at : Int
  token_type : String
  scope : Option String := none
  obtained_at : String
  provider : Option AuthProvider := none
deriving DecidableEq, Repr

/-- Raw token-endpoint JSON response (`OAuthTokenResponse` in `types.ts`). -/
structure OAuthTokenResponse where
  access_token : String
  refresh_token : Option String := none
  id_token : Option String := none
  expires_in : Option Int := none
  token_type : String
  scope : Option String := none
deriving DecidableEq, Repr

/-- Multi-provider token store (`MultiProviderTokens` in `types.ts`). -/
structure MultiProviderTokens where
  codex : Option StoredTokens := none
  claude : Option StoredTokens := none
  gemini : Option StoredTokens := none
deriving DecidableEq, Repr

/-- Look up a provider's entry (`all[provider]`). -/
def MultiProviderTokens.get (m : MultiProviderTokens) : AuthProvider → Option StoredTokens
  | .codex => m.codex
  | .claude => m.claude
  | .gemini => m.gemini

/-- Overwrite a provider's entry (`existing[provider] = ...`). -/
def MultiProviderTokens.set (m : MultiProviderTokens) :
    AuthProvider → Option StoredTokens → MultiProviderTokens
  | .codex, t => { m with codex := t }
  | .claude, t => { m with claude := t }
  | .gemini, t => { m with gemini := t }

/-- What reading and JSON-parsing a persisted file can observe: the file is
absent, it is unreadable or holds malformed content (read or parse throws),
or it holds a well-formed value. -/
inductive FileState (α : Type) where
  | missing
  | corrupt
  | valid (a : α)
deriving DecidableEq, Repr

/-- The try-block of `loadTokens` in `store.ts` (`readFile` + `JSON.parse`),
both of which can throw. -/
def loadTokensE : FileState StoredTokens → Except String StoredTokens
  | .missing => .error "ENOENT"
  | .corrupt => .error "malformed content"
  | .valid t => .ok t

/-- `loadTokens` (`store.ts`): try/catch around read + parse; any failure
becomes `null`. -/
def loadTokens (legacyFile : FileState StoredTokens) : Option StoredTokens :=
  (loadTokensE legacyFile).toOption

/-- `loadProviderTokens` (`store.ts`): when the multi-provider file is absent,
migrate from the legacy single-provider file (tagging it as `codex`); a read or
parse failure resolves to the empty map. -/
def loadProviderTokens (multiFile : FileState MultiProviderTokens)
    (legacyFile : FileState StoredTokens) : MultiProviderTokens :=
  match multiFile with
  | .missing =>
      match loadTokens legacyFile with
      | some legacy => { codex := some { legacy with provider := some .codex } }
      | none => {}
  | .corrupt => {}
  | .valid m => m

/-- The two on-disk credential files
(`providers.json` and the legacy `auth.json`). -/
structure StoreState where
  multiFile : FileState MultiProviderTokens
  legacyFile : FileState StoredTokens
deriving DecidableEq, Repr

/-- `saveTokens` (`store.ts`): overwrite the legacy file. -/
def saveTokens (st : StoreState) (tokens : StoredTokens) : StoreState :=
  { st with legacyFile := .valid tokens }

/-- `saveProviderTokens` (`store.ts`): read-modify-write of the multi-provider
file, mirroring into the legacy file for the `codex` provider. -/
def saveProviderTokens (st : StoreState) (provider : AuthProvider)
    (tokens : StoredTokens) : StoreState :=
  let existing := loadProviderTokens st.multiFile st.legacyFile
  let updated := existing.set provider (some { tokens with provider := some provider })
  let st1 : StoreState := { st with multiFile := .valid updated }
  if provider = .codex then saveTokens st1 tokens else st1

/-- `loadProviderToken` (`store.ts`): `all[provider] ?? null`. -/
def loadProviderToken (st : StoreState) (provider : AuthProvider) : Option StoredTokens :=
  (loadProviderTokens st.multiFile st.legacyFile).get provider

/-- `toStoredTokens` (`oauth.ts`): normalise a token response;
`expires_at = now + (expires_in ?? 3600) * 1000`. -/
def toStoredTokens (now : Int) (nowIso : String) (response : OAuthTokenResponse)
    (provider : AuthProvider) : StoredTokens :=
  { access_token := response.access_token
    refresh_token := response.refresh_token
    id_token := response.id_token
    expires_at := now + (response.expires_in.getD 3600) * 1000
    token_type := response.token_type
    scope := response.scope
    obtained_at := nowIso
    provider := some provider }

/-- `refreshAccessToken` (`oauth.ts`): POST the refresh grant to the token
endpoint. The network outcome is an oracle: `none` models a failed fetch or a
non-2xx response (the function throws), `some r` a 2xx JSON body, which is
normalised via `toStoredTokens`. -/
def refreshAccessToken (provider : AuthProvider) (now : Int) (nowIso : String)
    (fetchResult : Option OAuthTokenResponse) : Except String StoredTokens :=
  match fetchResult with
  | none => .error "Token refresh failed"
  | some r => .ok (toStoredTokens now nowIso r provider)

/-- The credential `getValidToken` operates on: the provider's multi-store
entry, falling back to the legacy file for `codex` (`oauth.ts` lines 125-129). -/
def effectiveToken (st : StoreState) (provider : AuthProvider) : Option StoredTokens :=
  match loadProviderToken st provider with
  | some t => some t
  | none => if provider = .codex then loadTokens st.legacyFile else none

/-- `const fiveMinutes = 5 * 60 * 1000`. -/
def fiveMinutes : Int := 5 * 60 * 1000

/-- Observable outcome of a `getValidToken` call: the returned credential,
the resulting persisted store, and whether a refresh fetch was attempted. -/
structure GetValidResult where
  result : Option StoredTokens
  store : StoreState
  refreshAttempted : Bool
deriving DecidableEq, Repr

/-- `getValidToken` (`oauth.ts`): return the stored credential unless
`expires_at` is truthy and `now > expires_at - fiveMinutes`; in that case
refresh when a `refresh_token` exists (persisting on success, returning `null`
on failure) and return `null` when it does not. -/
def getValidToken (st : StoreState) (provider : AuthProvider) (now : Int)
    (nowIso : String) (refreshFetch : Option OAuthTokenResponse) : GetValidResult :=
  match effectiveToken st provider with
  | none => ⟨none, st, false⟩
  | some eff =>
    if eff.expires_at ≠ 0 ∧ now > eff.expires_at - fiveMinutes then
      match eff.refresh_token with
      | none => ⟨none, st, false⟩
      | some _ =>
        match refreshAccessToken provider now nowIso refreshFetch with
        | .ok refreshed => ⟨some refreshed, saveProviderTokens st provider refreshed, true⟩
        | .error _ => ⟨none, st, true⟩
    else ⟨some eff, st, false⟩

end Auth

/-- JavaScript truthiness of a nullable string: `null`/`undefined` and the
empty string are falsy. -/
def jsTruthy (s : Option String) : Bool := s.getD "" ≠ ""

/-- JavaScript template interpolation of a nullable string:
`undefined` prints as the text `undefined`. -/
def jsShow (s : Option String) : String := s.getD "undefined"

namespace Auth

/-- Static per-provider OAuth configuration
(`OAuthProviderConfig` in `constants.ts`). Extra parameter records are
modelled as ordered key/value lists (`[]` for an absent record). -/
structure OAuthProviderConfig where
  name : AuthProvider
  label : String
  clientId : String
  authEndpoint : String
  tokenEndpoint : String
  callbackPort : Nat
  redirectUri : String
  scopes : String
  audience : Option String := none
  prompt : Option String := none
  extraAuthParams : List (String × String) := []
  extraTokenParams : List (String × String) := []
  usePKCE : Bool
deriving DecidableEq, Repr

/-- `CODEX_OAUTH` (`constants.ts`). -/
def CODEX_OAUTH : OAuthProviderConfig :=
  { name := .codex
    label := "ChatGPT (Codex)"
    clientId := "app_EMoamEEZ73f0CkXaXp7hrann"
    authEndpoint := "https://auth.openai.com/oauth/authorize"
    tokenEndpoint := "https://auth.openai.com/oauth/token"
    callbackPort := 1455
    redirectUri := "http://localhost:1455/auth/callback"
    scopes := "openid profile email offline_access"
    audience := some "https://api.openai.com/v1"
    prompt := some "login"
    usePKCE := true }

/-- `CLAUDE_OAUTH` (`constants.ts`). -/
def CLAUDE_OAUTH : OAuthProviderConfig :=
  { name := .claude
    label := "Claude (Anthropic)"
    clientId := "9d1c250a-e61b-44b0-b7e0-5f6803de7610"
    authEndpoint := "https://auth.anthropic.com/oauth/authorize"
    tokenEndpoint := "https://auth.anthropic.com/oauth/token"
    callbackPort := 1456
    redirectUri := "http://localhost:1456/auth/callback"
    scopes := "openid profile email offline_access"
    audience := some "https://api.anthropic.com"
    usePKCE := true }

/-- `GEMINI_OAUTH` (`constants.ts`). -/
def GEMINI_OAUTH : OAuthProviderConfig :=
  { name := .gemini
    label := "Gemini (Google)"
    clientId := "936475272427.apps.googleusercontent.com"
    authEndpoint := "https://accounts.google.com/o/oauth2/v2/auth"
    tokenEndpoint := "https://oauth2.googleapis.com/token"
    callbackPort := 1457
    redirectUri := "http://localhost:1457/auth/callback"
    scopes := "openid profile email https://www.googleapis.com/auth/generative-language"
    extraAuthParams := [("access_type", "offline"), ("prompt", "consent")]
    usePKCE := true }

/-- `PROVIDER_CONFIGS` (`constants.ts`). -/
def PROVIDER_CONFIGS : AuthProvider → OAuthProviderConfig
  | .codex => CODEX_OAUTH
  | .claude => CLAUDE_OAUTH
  | .gemini => GEMINI_OAUTH

/-! ### Byte-string encodings used by the PKCE flow -/

/-- The base64url alphabet (RFC 4648 §5), as used by Node's
`Buffer.toString('base64url')`. -/
def base64urlChar (n : Nat) : Char :=
  if n < 26 then Char.ofNat (65 + n)
  else if n < 52 then Char.ofNat (97 + (n - 26))
  else if n < 62 then Char.ofNat (48 + (n - 52))
  else if n = 62 then '-'
  else '_'

/-- Value of a base64url alphabet character. -/
def base64urlCharVal (c : Char) : Nat :=
  if c = '-' then 62
  else if c = '_' then 63
  else if 97 ≤ c.toNat then c.toNat - 71
  else if 65 ≤ c.toNat then c.toNat - 65
  else c.toNat - 48 + 52

/-- Unpadded base64url encoding of a byte list
(Node's `base64url` encoding drops padding). -/
def base64urlEncodeChars : List Nat → List Char
  | [] => []
  | [a] => [base64urlChar (a / 4), base64urlChar (a % 4 * 16)]
  | [a, b] => [base64urlChar (a / 4), base64urlChar (a % 4 * 16 + b / 16),
               base64urlChar (b % 16 * 4)]
  | a :: b :: c :: rest =>
      base64urlChar (a / 4) :: base64urlChar (a % 4 * 16 + b / 16) ::
      base64urlChar (b % 16 * 4 + c / 64) :: base64urlChar (c % 64) ::
      base64urlEncodeChars rest

/-- Left inverse of `base64urlEncodeChars` on byte lists. -/
def base64urlDecodeChars : List Char → List Nat
  | [c1, c2] => [base64urlCharVal c1 * 4 + base64urlCharVal c2 / 16]
  | [c1, c2, c3] =>
      [base64urlCharVal c1 * 4 + base64urlCharVal c2 / 16,
       base64urlCharVal c2 % 16 * 16 + base64urlCharVal c3 / 4]
  | c1 :: c2 :: c3 :: c4 :: rest =>
      (base64urlCharVal c1 * 4 + base64urlCharVal c2 / 16) ::
      (base64urlCharVal c2 % 16 * 16 + base64urlCharVal c3 / 4) ::
      (base64urlCharVal c3 % 4 * 64 + base64urlCharVal c4) ::
      base64urlDecodeChars rest
  | _ => []

/-- Unpadded base64url encoding as a string. -/
def base64urlEncode (bytes : List Nat) : String := ⟨base64urlEncodeChars bytes⟩

/-- Lower-case hexadecimal digit. -/
def hexDigit (n : Nat) : Char :=
  if n < 10 then Char.ofNat (48 + n) else Char.ofNat (87 + n)

/-- Value of a lower-case hexadecimal digit. -/
def hexDigitVal (c : Char) : Nat :=
  if 97 ≤ c.toNat then c.toNat - 87 else c.toNat - 48

/-- Hex encoding of a byte list, as produced by `Buffer.toString('hex')`. -/
def hexEncodeChars : List Nat → List Char
  | [] => []
  | b :: rest => hexDigit (b / 16) :: hexDigit (b % 16) :: hexEncodeChars rest

/-- Left inverse of `hexEncodeChars` on byte lists. -/
def hexDecodeChars : List Char → List Nat
  | c1 :: c2 :: rest => (hexDigitVal c1 * 16 + hexDigitVal c2) :: hexDecodeChars rest
  | _ => []

/-- Hex encoding as a string. -/
def hexEncode (bytes : List Nat) : String := ⟨hexEncodeChars bytes⟩

/-- Byte values of an ASCII string (the base64url alphabet is ASCII, so the
UTF-8 bytes of a verifier are its character codes). -/
def strBytes (s : String) : List Nat := s.data.map Char.toNat

/-- `generatePKCE` (`oauth.ts`): `verifier = base64url(randomBytes(32))` and
`challenge = base64url(sha256(verifier))`. The SHA-256 digest is an
uninterpreted parameter `sha` from byte lists to byte lists; the 32 random
bytes are the explicit `randBytes` argument. -/
def generatePKCE (sha : List Nat → List Nat) (randBytes : List Nat) : String × String :=
  let verifier := base64urlEncode randBytes
  let challenge := base64urlEncode (sha (strBytes verifier))
  (verifier, challenge)

/-- The anti-CSRF state token of `authenticateOAuth`:
`randomBytes(16).toString('hex')`. -/
def stateToken (randBytes : List Nat) : String := hexEncode randBytes

/-- JavaScript object insert-or-assign: overwriting an existing key keeps its
position, a new key is appended. -/
def assignParam (params : List (String × String)) (k v : String) : List (String × String) :=
  if params.any (fun p => p.1 = k) then
    params.map (fun p => if p.1 = k then (k, v) else p)
  else params ++ [(k, v)]

/-- The query parameters of `buildAuthUrl` (`oauth.ts`), in insertion order,
as serialised by `new URLSearchParams(params)`. -/
def buildAuthParams (config : OAuthProviderConfig) (challenge state : String) :
    List (String × String) :=
  let p : List (String × String) :=
    [("response_type", "code"), ("client_id", config.clientId),
     ("redirect_uri", config.redirectUri), ("scope", config.scopes),
     ("state", state)]
  let p := if config.usePKCE then
      assignParam (assignParam p "code_challenge" challenge) "code_challenge_method" "S256"
    else p
  let p := if jsTruthy config.audience then
      assignParam p "audience" (config.audience.getD "") else p
  let p := if jsTruthy config.prompt then
      assignParam p "prompt" (config.prompt.getD "") else p
  config.extraAuthParams.foldl (fun acc kv => assignParam acc kv.1 kv.2) p

/-- The values a `buildAuthUrl` query parameter can take: fixed literals,
configuration fields, the state token and the PKCE challenge.
The PKCE verifier is not among them. -/
def allowedAuthValues (config : OAuthProviderConfig) (challenge state : String) :
    List String :=
  ["code", config.clientId, config.redirectUri, config.scopes, state, challenge,
   "S256", config.audience.getD "", config.prompt.getD ""] ++
  config.extraAuthParams.map (fun kv => kv.2)

/-! ### OAuth callback handling (`authenticateOAuth`) -/

/-- Query parameters of a callback request;
`url.searchParams.get` yields `null` for an absent key. -/
structure CallbackQuery where
  code : Option String := none
  state : Option String := none
  error : Option String := none
deriving DecidableEq, Repr

/-- Terminal behaviour of one `/auth/callback` request inside
`authenticateOAuth`: the HTTP status served to the browser, whether the flow
promise resolves or rejects, the resulting credential store, and whether
`exchangeCodeForTokens` (the token endpoint) was invoked. -/
structure CallbackOutcome where
  httpStatus : Nat
  result : Except String StoredTokens
  store : StoreState
  exchangeCalled : Bool
deriving Repr

/-- `exchangeCodeForTokens` (`oauth.ts`): POST the authorization-code grant to
the token endpoint. `none` from the network oracle models a failed fetch or a
non-2xx response (the function throws); `some r` a 2xx JSON body. -/
def exchangeCodeForTokens (fetchResult : Option OAuthTokenResponse) :
    Except String OAuthTokenResponse :=
  match fetchResult with
  | none => .error "Token exchange failed"
  | some r => .ok r

/-- The `/auth/callback` branch of the HTTP listener inside `authenticateOAuth`
(`oauth.ts` lines 167-203): an `error` parameter (JS-truthy) fails the flow;
then a state mismatch fails the flow; otherwise the code is exchanged, the
normalised credential persisted and the flow resolved. -/
def handleCallback (provider : AuthProvider) (flowState : String)
    (q : CallbackQuery) (st : StoreState) (now : Int) (nowIso : String)
    (exchangeFetch : Option OAuthTokenResponse) : CallbackOutcome :=
  if jsTruthy q.error then
    ⟨400, .error ("OAuth error: " ++ q.error.getD ""), st, false⟩
  else if q.state ≠ some flowState then
    ⟨400, .error "State mismatch", st, false⟩
  else
    match exchangeCodeForTokens exchangeFetch with
    | .error msg => ⟨500, .error msg, st, true⟩
    | .ok r =>
        let stored := toStoredTokens now nowIso r provider
        ⟨200, .ok stored, saveProviderTokens st provider stored, true⟩

end Auth

namespace Proxy

open Auth

/-! ### The built-in protocol gateway (`ProxyManager.startBuiltinProxy`) -/

/-- Backend auth scheme (`ProxyBackend.auth`, a closed 4-case union). -/
inductive AuthScheme where
  | codexOauth
  | claudeOauth
  | geminiOauth
  | apiKey
deriving DecidableEq, Repr

/-- `ProxyBackend` (proxy `types.ts`). -/
structure ProxyBackend where
  name : String
  url : String
  auth : AuthScheme
  apiKeyEnv : Option String := none
deriving DecidableEq, Repr

/-- `ProxyRoute` (proxy `types.ts`): glob pattern on the model name → backend. -/
structure ProxyRoute where
  pattern : String
  backend : ProxyBackend
deriving DecidableEq, Repr

/-- A role-tagged chat message of the canonical request. -/
structure ChatMessage where
  role : String
  content : String
deriving DecidableEq, Repr

/-- The `reasoning` body field of the Codex schema. -/
structure ReasoningConfig where
  summary : Option String := none
deriving DecidableEq, Repr

/-- One entry of the Gemini `contents[]` array
(`{role, parts: [{text}]}` with a single part). -/
structure GeminiContent where
  role : String
  text : String
deriving DecidableEq, Repr

/-- The JSON request-body fields the built-in proxy reads or writes. `none`
models an absent field; a non-JSON body parses to the all-absent record
(the `JSON.parse` catch leaves `parsed = {}`). `systemInstruction` stores the
text of its single part and `generationConfig` its `maxOutputTokens`. -/
structure RequestBody where
  model : Option String := none
  messages : Option (List ChatMessage) := none
  max_tokens : Option Int := none
  stream : Option Bool := none
  instructions : Option String := none
  input : Option (List ChatMessage) := none
  store : Option Bool := none
  reasoning : Option ReasoningConfig := none
  system : Option String := none
  contents : Option (List GeminiContent) := none
  systemInstruction : Option String := none
  generationConfig : Option Int := none
deriving DecidableEq, Repr

/-- Fuel-indexed matcher for the route regex
`new RegExp('^' + pattern.replace(/\x2a/g, '.*') + '$')`: `*` matches any
(possibly empty) span, every other character matches itself — exactly the
regex's behaviour for patterns free of further regex metacharacters, the form
routes take (`gpt-*`, `claude-*`, ...). Every recursive call shortens
pattern + model, so the initial fuel of `globMatch` is never exhausted. -/
def globMatchFuel : Nat → List Char → List Char → Bool
  | 0, _, _ => false
  | _ + 1, [], m => m.isEmpty
  | fuel + 1, '*' :: ps, m =>
      globMatchFuel fuel ps m ||
      (match m with
       | [] => false
       | _ :: ms => globMatchFuel fuel ('*' :: ps) ms)
  | _ + 1, _ :: _, [] => false
  | fuel + 1, q :: ps, c :: ms => (q = c) && globMatchFuel fuel ps ms

/-- Whether a route pattern matches a model name. -/
def globMatch (pattern model : String) : Bool :=
  globMatchFuel (pattern.length + model.length + 1) pattern.data model.data

/-- Route selection: `config.routes.find(r => regex.test(model))` —
the first matching route in configuration order. -/
def findRoute (routes : List ProxyRoute) (model : String) : Option ProxyRoute :=
  routes.find? (fun r => globMatch r.pattern model)

/-- Observable behaviour of the built-in proxy on one completion request:
either a locally produced `{error: msg}` response (no upstream contact), or
exactly one forwarded upstream request with its URL, headers and body. -/
inductive GatewayOutcome where
  | respond (status : Nat) (errorMsg : String)
  | forward (url : String) (headers : List (String × String)) (body : RequestBody)
deriving DecidableEq, Repr

/-- Per-route authentication and translation of the built-in proxy
(`ProxyManager.startBuiltinProxy`, after route selection). Oracles: `tokenFor p`
is the result of `getValidToken` for provider `p` at the time of the request,
`env` the process environment. `model` is the already-computed
`(parsed.model as string) ?? ''`. -/
def dispatchRoute (route : ProxyRoute)
    (tokenFor : AuthProvider → Option StoredTokens)
    (env : String → Option String)
    (body : RequestBody) (model : String) : GatewayOutcome :=
    let headers : List (String × String) :=
      [("Content-Type", "application/json"), ("User-Agent", "vibepity-proxy/0.1.0")]
    match route.backend.auth with
    | .codexOauth =>
      match tokenFor .codex with
      | none => .respond 401 "Not authenticated. Run: vibepity onboard"
      | some tokens =>
        let headers := headers ++ [("Authorization", "Bearer " ++ tokens.access_token)]
        let parsed := { body with stream := some true }
        let parsed :=
          if ¬ jsTruthy parsed.instructions ∧ parsed.messages.isSome then
            let msgs := parsed.messages.getD []
            let parsed :=
              match msgs.find? (fun m => m.role = "system") with
              | some sysMsg =>
                  { parsed with
                    instructions := some sysMsg.content,
                    input := some (msgs.filter (fun m => m.role ≠ "system")) }
              | none => { parsed with input := some msgs }
            { parsed with messages := none }
          else parsed
        let parsed := { parsed with store := some false }
        let parsed := { parsed with reasoning := some (parsed.reasoning.getD ⟨some "auto"⟩) }
        .forward route.backend.url headers parsed
    | .claudeOauth =>
      match tokenFor .claude with
      | none => .respond 401 "Claude not authenticated. Run: vibepity auth login claude"
      | some claudeTokens =>
        let headers := headers ++
          [("x-api-key", claudeTokens.access_token), ("anthropic-version", "2024-01-01")]
        let parsed :=
          if body.messages.isSome then
            let msgs := body.messages.getD []
            let parsed : RequestBody :=
              match msgs.find? (fun m => m.role = "system") with
              | some sysMsg => { body with system := some sysMsg.content }
              | none => body
            let parsed : RequestBody :=
              { parsed with
                messages := some ((msgs.filter (fun m => m.role ≠ "system")).map
                  (fun m => ({ role := if m.role = "system" then "user" else m.role,
                               content := m.content } : ChatMessage))) }
            { parsed with max_tokens := some (parsed.max_tokens.getD 4096) }
          else body
        .forward route.backend.url headers parsed
    | .geminiOauth =>
      match tokenFor .gemini with
      | none => .respond 401 "Gemini not authenticated. Run: vibepity auth login gemini"
      | some geminiTokens =>
        let headers := headers ++ [("Authorization", "Bearer " ++ geminiTokens.access_token)]
        let parsed :=
          if body.messages.isSome then
            let msgs := body.messages.getD []
            let sysMsg := msgs.find? (fun m => m.role = "system")
            let parsed : RequestBody :=
              { body with
                contents := some ((msgs.filter (fun m => m.role ≠ "system")).map
                  (fun m => ({ role := if m.role = "assistant" then "model" else "user",
                               text := m.content } : GeminiContent))) }
            let parsed : RequestBody :=
              match sysMsg with
              | some s => { parsed with systemInstruction := some s.content }
              | none => parsed
            let parsed := { parsed with generationConfig := some (parsed.max_tokens.getD 4096) }
            { parsed with messages := none, model := none, max_tokens := none }
          else body
        let geminiModel := if model = "" then "gemini-2.5-flash" else model
        .forward (route.backend.url ++ "/" ++ geminiModel ++ ":generateContent") headers parsed
    | .apiKey =>
      let apiKey := if jsTruthy route.backend.apiKeyEnv
                    then env (route.backend.apiKeyEnv.getD "") else none
      if ¬ jsTruthy apiKey then
        .respond 401 ("API key not set: " ++ jsShow route.backend.apiKeyEnv)
      else
        .forward route.backend.url
          (headers ++ [("Authorization", "Bearer " ++ apiKey.getD "")]) body

/-- The completion branch of the built-in proxy's request handler
(`ProxyManager.startBuiltinProxy`; the `/health` branch is handled before it):
select the first matching route by model name, else respond `400` with no
upstream contact. -/
def handleRequest (routes : List ProxyRoute)
    (tokenFor : AuthProvider → Option StoredTokens)
    (env : String → Option String)
    (body : RequestBody) : GatewayOutcome :=
  let model := body.model.getD ""
  match findRoute routes model with
  | none => .respond 400 ("No route for model: " ++ model)
  | some route => dispatchRoute route tokenFor env body model

/-- The `routes` list of `DEFAULT_CONFIG` (proxy `types.ts`). -/
def defaultRoutes : List ProxyRoute :=
  [⟨"gpt-*", ⟨"codex", "https://chatgpt.com/backend-api/codex/responses", .codexOauth, none⟩⟩,
   ⟨"openai/*", ⟨"openai-api", "https://api.openai.com/v1", .apiKey, some "OPENAI_API_KEY"⟩⟩,
   ⟨"claude-*", ⟨"claude", "https://api.anthropic.com/v1/messages", .claudeOauth, none⟩⟩,
   ⟨"gemini-*", ⟨"gemini", "https://generativelanguage.googleapis.com/v1beta/models",
      .geminiOauth, none⟩⟩]

/-! ### Process supervisor (`ProxyManager.start/status/healthCheck`) -/

/-- The supervisor's tracked state: the in-process child handle's pid and the
persisted pid file. -/
structure SupervisorState where
  procPid : Option Nat := none
  pidFile : Option Nat := none
deriving DecidableEq, Repr

/-- The status report of `ProxyManager.status()` (port and uptime omitted). -/
structure ProxyStatus where
  running : Bool
  pid : Option Nat := none
deriving DecidableEq, Repr

/-- `ProxyManager.healthCheck()`: probe `GET /health` with a 3-second abort.
The oracle is the probe's HTTP status, `none` for a network failure or
timeout (the catch branch); `res.ok` means a status in 200..299. -/
def healthCheck (probe : Option Nat) : Bool :=
  match probe with
  | none => false
  | some status => decide (200 ≤ status ∧ status ≤ 299)

/-- `ProxyManager.status()`: reconcile `this.process?.pid ?? loadPid()` against
the OS process table (`alive`), clearing a stale pid file. -/
def statusOf (alive : Nat → Bool) (st : SupervisorState) : ProxyStatus × SupervisorState :=
  let pid : Option Nat := match st.procPid with
             | some p => some p
             | none => st.pidFile
  let running : Bool := match pid with | some p => alive p | none => false
  let st' := if !running && pid.isSome then { st with pidFile := none } else st
  ({ running := running, pid := if running then pid else none }, st')

/-- What `ProxyManager.start()` decides to do. -/
inductive StartAction where
  | noop (status : ProxyStatus)
  | spawnCli (path : String)
  | spawnBuiltin
deriving DecidableEq, Repr

/-- `ProxyManager.start()`: short-circuit when `status().running`; otherwise
spawn the system CLIProxyAPI when a PATH lookup finds one, else the built-in
proxy. The short-circuit consults only the pid-based `status()`; it never
probes `/health`. -/
def startDecision (alive : Nat → Bool) (cliProxyPath : Option String)
    (st : SupervisorState) : StartAction × SupervisorState :=
  let (stat, st') := statusOf alive st
  if stat.running then (.noop stat, st')
  else
    match cliProxyPath with
    | some p => (.spawnCli p, st')
    | none => (.spawnBuiltin, st')

end Proxy

/-! ## Theorems -/

namespace Auth

/-- C1: in an active OAuth flow, a callback request on `/auth/callback` that
carries no `error` parameter and whose `state` parameter differs from the
flow's state token makes the flow terminate in failure — the promise rejects
with "State mismatch", the credential store is unchanged — and
`exchangeCodeForTokens` (the token-exchange endpoint) is never invoked. -/
theorem callback_stateMismatch_failsFlow
    (provider : AuthProvider) (flowState : String) (q : CallbackQuery)
    (st : StoreState) (now : Int) (nowIso : String)
    (exchangeFetch : Option OAuthTokenResponse)
    (herr : q.error = none)
    (hstate : q.state ≠ some flowState) :
    handleCallback provider flowState q st now nowIso exchangeFetch =
      ⟨400, .error "State mismatch", st, false⟩ := by
  simp [handleCallback, herr, jsTruthy, hstate]

/-- Witness for C1: a concrete mismatching callback, with an exchange oracle
that would succeed were it consulted, still fails without persisting. -/
theorem callback_stateMismatch_failsFlow_witness :
    handleCallback .codex "expected" ⟨some "authcode", some "attacker", none⟩
      ⟨.missing, .missing⟩ 1000 "iso"
      (some { access_token := "x", token_type := "Bearer" }) =
      ⟨400, .error "State mismatch", ⟨.missing, .missing⟩, false⟩ :=
  callback_stateMismatch_failsFlow .codex "expected"
    ⟨some "authcode", some "attacker", none⟩ ⟨.missing, .missing⟩ 1000 "iso"
    (some { access_token := "x", token_type := "Bearer" }) rfl (by decide)

/-- C2 (counterexample): a stored codex credential with `expires_at = 0` — a
falsy epoch value, i.e. long past expiry at `now = 1700000000000` — and no
`refresh_token`. The claim demands `getValid` return `none`, but
`getValidToken` skips the expiry branch for a falsy `expires_at` and returns
the credential unchanged. -/
theorem getValid_zeroExpiresAt_counterexample :
    (let eff : StoredTokens :=
       { access_token := "AT", expires_at := 0, token_type := "Bearer",
         obtained_at := "iso" }
     let st : StoreState := ⟨.valid { codex := some eff }, .missing⟩
     effectiveToken st .codex = some eff ∧
     eff.refresh_token = none ∧
     eff.expires_at - fiveMinutes < 1700000000000 ∧
     (getValidToken st .codex 1700000000000 "iso" none).result = some eff ∧
     (getValidToken st .codex 1700000000000 "iso" none).result ≠ none) := by
  exact ⟨rfl, rfl, by decide, rfl, by decide⟩

/-- C2 (amended): for a stored credential, (a) when `now` is not later than
`expires_at` minus five minutes, `getValid` returns it unchanged with no
refresh attempted and the store untouched; (b) when `expires_at` is nonzero
(truthy), `now` is within the five-minute pre-expiry window or past expiry,
and no `refresh_token` exists, `getValid` returns `none` without any network
call. (The unamended claim fails for the falsy value `expires_at = 0`, which
the code treats as non-expiring.) -/
theorem getValid_fresh_or_noRefreshToken
    (st : StoreState) (provider : AuthProvider) (now : Int) (nowIso : String)
    (fetch : Option OAuthTokenResponse) (eff : StoredTokens)
    (heff : effectiveToken st provider = some eff) :
    (now ≤ eff.expires_at - fiveMinutes →
      getValidToken st provider now nowIso fetch = ⟨some eff, st, false⟩) ∧
    (eff.expires_at ≠ 0 → eff.expires_at - fiveMinutes < now →
      eff.refresh_token = none →
      getValidToken st provider now nowIso fetch = ⟨none, st, false⟩) := by
  constructor
  · intro hle
    have h : ¬(eff.expires_at ≠ 0 ∧ eff.expires_at - fiveMinutes < now) := by
      rintro ⟨-, hgt⟩
      exact absurd hle (not_le.mpr hgt)
    simp only [getValidToken, heff]
    rw [if_neg h]
  · intro hne hgt hrt
    simp only [getValidToken, heff]
    rw [if_pos ⟨hne, hgt⟩, hrt]

/-- Witness for C2 (amended), part (a): a fresh credential is returned
unchanged, and part (b): an expired credential without refresh token yields
`none` with no refresh attempt. -/
theorem getValid_fresh_or_noRefreshToken_witness :
    (let fresh : StoredTokens :=
       { access_token := "AT", expires_at := 2000000, token_type := "Bearer",
         obtained_at := "iso" }
     let st : StoreState := ⟨.valid { codex := some fresh }, .missing⟩
     getValidToken st .codex 1000000 "iso" none = ⟨some fresh, st, false⟩ ∧
     getValidToken st .codex 1800000 "iso" none = ⟨none, st, false⟩) := by
  intro fresh st
  exact ⟨(getValid_fresh_or_noRefreshToken st .codex 1000000 "iso" none fresh rfl).1
      (by decide),
    (getValid_fresh_or_noRefreshToken st .codex 1800000 "iso" none fresh rfl).2
      (by decide) (by decide) rfl⟩

/-- C10: for a stored credential inside the five-minute pre-expiry window (at
a positive clock) holding a `refresh_token`, a failed refresh fetch makes
`getValid` return `none` with the persisted store exactly as before — the
credential is neither overwritten nor deleted — and, for any fetch outcome,
the store changes only when the refresh fetch succeeded. -/
theorem getValid_refreshFailure_preservesStore
    (st : StoreState) (provider : AuthProvider) (now : Int) (nowIso : String)
    (eff : StoredTokens) (rt : String)
    (heff : effectiveToken st provider = some eff)
    (hrt : eff.refresh_token = some rt)
    (hnow : 0 < now)
    (hwin1 : eff.expires_at - fiveMinutes < now)
    (hwin2 : now ≤ eff.expires_at) :
    getValidToken st provider now nowIso none = ⟨none, st, true⟩ ∧
    ∀ fetch : Option OAuthTokenResponse,
      (getValidToken st provider now nowIso fetch).store ≠ st → fetch.isSome := by
  have hne : eff.expires_at ≠ 0 := (lt_of_lt_of_le hnow hwin2).ne'
  have hfail : getValidToken st provider now nowIso none = ⟨none, st, true⟩ := by
    simp only [getValidToken, heff]
    rw [if_pos ⟨hne, hwin1⟩, hrt]
    rfl
  refine ⟨hfail, ?_⟩
  intro fetch hst
  cases fetch with
  | some r => rfl
  | none => exact absurd (by rw [hfail]) hst

/-- Witness for C10: a concrete in-window credential whose refresh fails. -/
theorem getValid_refreshFailure_preservesStore_witness :
    (let eff : StoredTokens :=
       { access_token := "AT", refresh_token := some "r", expires_at := 400000,
         token_type := "Bearer", obtained_at := "iso" }
     let st : StoreState := ⟨.valid { codex := some eff }, .missing⟩
     getValidToken st .codex 200000 "iso" none = ⟨none, st, true⟩) := by
  intro eff st
  exact (getValid_refreshFailure_preservesStore st .codex 200000 "iso" eff "r"
    rfl rfl (by decide) (by decide) (by decide)).1

/-- C8: the credential loaders never raise — they are total functions into
`Option`/plain maps — and a missing, unreadable or malformed credential file
resolves to `none`, with the multi-provider map resolving to the empty map
(when the legacy fallback file is also absent or bad), for every provider. -/
theorem load_badFiles_resolveToNone
    (provider : AuthProvider)
    (multi : FileState MultiProviderTokens) (legacy : FileState StoredTokens)
    (hm : multi = .missing ∨ multi = .corrupt)
    (hl : legacy = .missing ∨ legacy = .corrupt) :
    loadTokens legacy = none ∧
    loadProviderTokens multi legacy = {} ∧
    loadProviderToken ⟨multi, legacy⟩ provider = none := by
  rcases hm with hm | hm <;> rcases hl with hl | hl <;> subst hm <;> subst hl <;>
    cases provider <;> exact ⟨rfl, rfl, rfl⟩

/-- Witness for C8: both files missing. -/
theorem load_badFiles_resolveToNone_witness :
    loadTokens .missing = none ∧
    loadProviderTokens .missing .missing = {} ∧
    loadProviderToken ⟨.missing, .missing⟩ AuthProvider.codex = none :=
  load_badFiles_resolveToNone .codex .missing .missing (Or.inl rfl) (Or.inl rfl)

/-! ### Encoding lemmas for the PKCE flow (C7) -/

/-- A hex digit decodes to its value. -/
theorem hexDigitVal_hexDigit : ∀ n, n < 16 → hexDigitVal (hexDigit n) = n := by
  decide

/-- A base64url alphabet character decodes to its value. -/
theorem base64urlCharVal_base64urlChar :
    ∀ n, n < 64 → base64urlCharVal (base64urlChar n) = n := by
  decide

/-- Hex decoding inverts hex encoding on byte lists. -/
theorem hexDecodeChars_hexEncodeChars (l : List Nat) (h : ∀ b ∈ l, b < 256) :
    hexDecodeChars (hexEncodeChars l) = l := by
  match l with
  | [] => rfl
  | b :: rest =>
      have hb : b < 256 := h b (by simp)
      have h1 := hexDigitVal_hexDigit (b / 16) (by omega)
      have h2 := hexDigitVal_hexDigit (b % 16) (by omega)
      have ih := hexDecodeChars_hexEncodeChars rest (fun x hx => h x (by simp [hx]))
      simp only [hexEncodeChars, hexDecodeChars, h1, h2, List.cons.injEq, ih,
        and_true]
      omega

/-- Hex encoding is injective on byte lists: distinct random bytes produce
distinct state tokens. -/
theorem hexEncode_inj (l1 l2 : List Nat) (h1 : ∀ b ∈ l1, b < 256)
    (h2 : ∀ b ∈ l2, b < 256) (he : hexEncode l1 = hexEncode l2) : l1 = l2 := by
  have hdata : hexEncodeChars l1 = hexEncodeChars l2 := congrArg String.data he
  calc l1 = hexDecodeChars (hexEncodeChars l1) :=
        (hexDecodeChars_hexEncodeChars l1 h1).symm
    _ = hexDecodeChars (hexEncodeChars l2) := by rw [hdata]
    _ = l2 := hexDecodeChars_hexEncodeChars l2 h2

/-- Base64url decoding inverts base64url encoding on byte lists. -/
theorem base64urlDecodeChars_base64urlEncodeChars (l : List Nat)
    (h : ∀ b ∈ l, b < 256) :
    base64urlDecodeChars (base64urlEncodeChars l) = l := by
  match l with
  | [] => rfl
  | [a] =>
      have ha : a < 256 := h a (by simp)
      have h1 := base64urlCharVal_base64urlChar (a / 4) (by omega)
      have h2 := base64urlCharVal_base64urlChar (a % 4 * 16) (by omega)
      simp only [base64urlEncodeChars, base64urlDecodeChars, h1, h2,
        List.cons.injEq, and_true]
      omega
  | [a, b] =>
      have ha : a < 256 := h a (by simp)
      have hb : b < 256 := h b (by simp)
      have h1 := base64urlCharVal_base64urlChar (a / 4) (by omega)
      have h2 := base64urlCharVal_base64urlChar (a % 4 * 16 + b / 16) (by omega)
      have h3 := base64urlCharVal_base64urlChar (b % 16 * 4) (by omega)
      simp only [base64urlEncodeChars, base64urlDecodeChars, h1, h2, h3,
        List.cons.injEq, and_true]
      constructor <;> omega
  | a :: b :: c :: rest =>
      have ha : a < 256 := h a (by simp)
      have hb : b < 256 := h b (by simp)
      have hc : c < 256 := h c (by simp)
      have ih := base64urlDecodeChars_base64urlEncodeChars rest
        (fun x hx => h x (by simp [hx]))
      have h1 := base64urlCharVal_base64urlChar (a / 4) (by omega)
      have h2 := base64urlCharVal_base64urlChar (a % 4 * 16 + b / 16) (by omega)
      have h3 := base64urlCharVal_base64urlChar (b % 16 * 4 + c / 64) (by omega)
      have h4 := base64urlCharVal_base64urlChar (c % 64) (by omega)
      simp only [base64urlEncodeChars, base64urlDecodeChars, h1, h2, h3, h4,
        List.cons.injEq, ih, and_true]
      refine ⟨by omega, by omega, by omega⟩

/-- Base64url encoding is injective on byte lists: distinct SHA-256 digests
produce distinct challenges. -/
theorem base64urlEncode_inj (l1 l2 : List Nat) (h1 : ∀ b ∈ l1, b < 256)
    (h2 : ∀ b ∈ l2, b < 256) (he : base64urlEncode l1 = base64urlEncode l2) :
    l1 = l2 := by
  have hdata : base64urlEncodeChars l1 = base64urlEncodeChars l2 :=
    congrArg String.data he
  calc l1 = base64urlDecodeChars (base64urlEncodeChars l1) :=
        (base64urlDecodeChars_base64urlEncodeChars l1 h1).symm
    _ = base64urlDecodeChars (base64urlEncodeChars l2) := by rw [hdata]
    _ = l2 := base64urlDecodeChars_base64urlEncodeChars l2 h2

/-- The length of an unpadded base64url encoding, by input length. -/
theorem base64urlEncodeChars_length (l : List Nat) :
    (base64urlEncodeChars l).length =
      4 * (l.length / 3) +
        (if l.length % 3 = 0 then 0 else l.length % 3 + 1) := by
  match l with
  | [] => rfl
  | [a] => simp [base64urlEncodeChars]
  | [a, b] => simp [base64urlEncodeChars]
  | a :: b :: c :: rest =>
      have ih := base64urlEncodeChars_length rest
      have hmod : (rest.length + 1 + 1 + 1) % 3 = rest.length % 3 := by omega
      have hdiv : (rest.length + 1 + 1 + 1) / 3 = rest.length / 3 + 1 := by
        omega
      simp only [base64urlEncodeChars, List.length_cons, ih, hmod, hdiv]
      by_cases hz : rest.length % 3 = 0
      · simp only [if_pos hz]
        omega
      · simp only [if_neg hz]
        omega

/-! ### Authorize-URL parameter lemmas (C7) -/

/-- Every entry of `assignParam p k v` is an entry of `p` or carries the
assigned value `v`. -/
theorem mem_assignParam (params : List (String × String)) (k v : String)
    (kv : String × String) (h : kv ∈ assignParam params k v) :
    kv ∈ params ∨ kv.2 = v := by
  unfold assignParam at h
  split at h
  · rcases List.mem_map.mp h with ⟨p, hp, heq⟩
    by_cases hpk : p.1 = k
    · right
      rw [if_pos hpk] at heq
      rw [← heq]
    · left
      rw [if_neg hpk] at heq
      rw [← heq]
      exact hp
  · rcases List.mem_append.mp h with h | h
    · exact Or.inl h
    · right
      rw [List.mem_singleton.mp h]

/-- The assigned pair is always present after `assignParam`. -/
theorem self_mem_assignParam (params : List (String × String)) (k v : String) :
    (k, v) ∈ assignParam params k v := by
  unfold assignParam
  split
  · next h =>
      rcases List.any_eq_true.mp h with ⟨p, hp, hpk⟩
      exact List.mem_map.mpr ⟨p, hp, by rw [if_pos (of_decide_eq_true hpk)]⟩
  · exact List.mem_append_right _ (List.mem_singleton.mpr rfl)

/-- `assignParam` with a different key preserves an entry. -/
theorem mem_assignParam_of_ne (params : List (String × String)) (k v : String)
    (kv : String × String) (h : kv ∈ params) (hne : kv.1 ≠ k) :
    kv ∈ assignParam params k v := by
  unfold assignParam
  split
  · exact List.mem_map.mpr ⟨kv, h, by rw [if_neg hne]⟩
  · exact List.mem_append_left _ h

/-- Folding `assignParam` over extra parameters keeps all values within a set
containing the accumulator's values and the extras' values. -/
theorem foldl_assignParam_values (A : List String) :
    ∀ (extras acc : List (String × String)),
    (∀ kv ∈ acc, kv.2 ∈ A) → (∀ kv ∈ extras, kv.2 ∈ A) →
    ∀ kv ∈ extras.foldl (fun acc kv => assignParam acc kv.1 kv.2) acc,
      kv.2 ∈ A := by
  intro extras
  induction extras with
  | nil =>
      intro acc hacc _ kv hkv
      exact hacc kv hkv
  | cons e es ih =>
      intro acc hacc hex kv hkv
      simp only [List.foldl_cons] at hkv
      refine ih (assignParam acc e.1 e.2) ?_
        (fun x hx => hex x (List.mem_cons_of_mem _ hx)) kv hkv
      intro x hx
      rcases mem_assignParam acc e.1 e.2 x hx with h | h
      · exact hacc x h
      · rw [h]
        exact hex e (List.mem_cons_self _ _)

/-- Folding `assignParam` over extra parameters with keys different from an
entry's key preserves that entry. -/
theorem mem_foldl_assignParam :
    ∀ (extras acc : List (String × String)) (kv : String × String),
    kv ∈ acc → (∀ e ∈ extras, e.1 ≠ kv.1) →
    kv ∈ extras.foldl (fun acc kv => assignParam acc kv.1 kv.2) acc := by
  intro extras
  induction extras with
  | nil =>
      intro acc kv h _
      exact h
  | cons e es ih =>
      intro acc kv h hne
      simp only [List.foldl_cons]
      exact ih _ kv
        (mem_assignParam_of_ne acc e.1 e.2 kv h
          (fun hk => hne e (List.mem_cons_self _ _) hk.symm))
        (fun x hx => hne x (List.mem_cons_of_mem _ hx))

/-- A conditional single assignment keeps values within the allowed set. -/
theorem ite_assignParam_values {A : List String} {c : Prop} [Decidable c]
    (p : List (String × String)) (k v : String)
    (hp : ∀ kv ∈ p, kv.2 ∈ A) (hv : v ∈ A) :
    ∀ kv ∈ (if c then assignParam p k v else p), kv.2 ∈ A := by
  split
  · intro kv hkv
    rcases mem_assignParam p k v kv hkv with h | h
    · exact hp kv h
    · rw [h]
      exact hv
  · exact hp

/-- A conditional double assignment keeps values within the allowed set. -/
theorem ite_assignParam2_values {A : List String} {c : Prop} [Decidable c]
    (p : List (String × String)) (k1 v1 k2 v2 : String)
    (hp : ∀ kv ∈ p, kv.2 ∈ A) (hv1 : v1 ∈ A) (hv2 : v2 ∈ A) :
    ∀ kv ∈ (if c then assignParam (assignParam p k1 v1) k2 v2 else p),
      kv.2 ∈ A := by
  split
  · intro kv hkv
    rcases mem_assignParam _ k2 v2 kv hkv with h | h
    · rcases mem_assignParam p k1 v1 kv h with h2 | h2
      · exact hp kv h2
      · rw [h2]
        exact hv1
    · rw [h]
      exact hv2
  · exact hp

/-- Every value appearing among the authorize-URL parameters is one of the
allowed values (fixed literals, configured values, state, challenge). -/
theorem buildAuthParams_values (config : OAuthProviderConfig)
    (challenge state : String) :
    ∀ kv ∈ buildAuthParams config challenge state,
      kv.2 ∈ allowedAuthValues config challenge state := by
  have h0 : ∀ kv ∈ ([("response_type", "code"), ("client_id", config.clientId),
      ("redirect_uri", config.redirectUri), ("scope", config.scopes),
      ("state", state)] : List (String × String)),
      kv.2 ∈ allowedAuthValues config challenge state := by
    intro kv hkv
    simp only [List.mem_cons, List.not_mem_nil, or_false] at hkv
    rcases hkv with rfl | rfl | rfl | rfl | rfl <;> simp [allowedAuthValues]
  unfold buildAuthParams
  refine foldl_assignParam_values _ _ _
    (ite_assignParam_values _ "prompt" _
      (ite_assignParam_values _ "audience" _
        (ite_assignParam2_values _ "code_challenge" challenge
          "code_challenge_method" "S256" h0
          (by simp [allowedAuthValues]) (by simp [allowedAuthValues]))
        (by simp [allowedAuthValues]))
      (by simp [allowedAuthValues])) ?_
  intro kv hkv
  simp only [allowedAuthValues]
  exact List.mem_append_right _ (List.mem_map.mpr ⟨kv, hkv, rfl⟩)

/-- When PKCE is enabled (and no extra parameter overrides the key), the
challenge is among the authorize parameters under `code_challenge`. -/
theorem codeChallenge_mem_buildAuthParams (config : OAuthProviderConfig)
    (challenge state : String)
    (hPKCE : config.usePKCE = true)
    (hkey : ∀ e ∈ config.extraAuthParams, e.1 ≠ "code_challenge") :
    ("code_challenge", challenge) ∈ buildAuthParams config challenge state := by
  simp only [buildAuthParams]
  rw [if_pos hPKCE]
  refine mem_foldl_assignParam _ _ _ ?_ hkey
  have hbase : ("code_challenge", challenge) ∈
      assignParam (assignParam
        [("response_type", "code"), ("client_id", config.clientId),
         ("redirect_uri", config.redirectUri), ("scope", config.scopes),
         ("state", state)] "code_challenge" challenge)
        "code_challenge_method" "S256" :=
    mem_assignParam_of_ne _ _ _ _ (self_mem_assignParam _ _ _)
      (show ("code_challenge" : String) ≠ "code_challenge_method" by decide)
  split
  · refine mem_assignParam_of_ne _ _ _ _ ?_
      (show ("code_challenge" : String) ≠ "prompt" by decide)
    split
    · exact mem_assignParam_of_ne _ _ _ _ hbase
        (show ("code_challenge" : String) ≠ "audience" by decide)
    · exact hbase
  · split
    · exact mem_assignParam_of_ne _ _ _ _ hbase
        (show ("code_challenge" : String) ≠ "audience" by decide)
    · exact hbase

/-- C7: for a fresh authorization flow (no cached-credential short-circuit):
the verifier is the base64url encoding of exactly the 32 random bytes drawn
for it (so its length is 43); the challenge equals
`base64url(SHA256(verifier))`, with SHA-256 abstracted as the digest function
`sha`; when PKCE is enabled the authorize parameters carry the challenge
under `code_challenge`, while the verifier — being distinct from every
allowed parameter value — appears in no parameter; and state and challenge
are generated independently: flows over different random bytes have different
state tokens, and flows whose SHA digests differ have different challenges. -/
theorem pkce_flow_properties
    (sha : List Nat → List Nat) (config : OAuthProviderConfig)
    (pkceBytes stateBytes : List Nat)
    (verifier challenge state : String)
    (hp32 : pkceBytes.length = 32)
    (hgen : generatePKCE sha pkceBytes = (verifier, challenge))
    (hstate : state = stateToken stateBytes) :
    verifier = base64urlEncode pkceBytes ∧
    challenge = base64urlEncode (sha (strBytes verifier)) ∧
    verifier.length = 43 ∧
    (config.usePKCE = true →
      (∀ e ∈ config.extraAuthParams, e.1 ≠ "code_challenge") →
      ("code_challenge", challenge) ∈ buildAuthParams config challenge state) ∧
    (verifier ∉ allowedAuthValues config challenge state →
      ∀ kv ∈ buildAuthParams config challenge state, kv.2 ≠ verifier) ∧
    (∀ stateBytes2, (∀ b ∈ stateBytes, b < 256) → (∀ b ∈ stateBytes2, b < 256) →
      stateBytes ≠ stateBytes2 → state ≠ stateToken stateBytes2) ∧
    (∀ pkceBytes2 verifier2 challenge2,
      generatePKCE sha pkceBytes2 = (verifier2, challenge2) →
      (∀ b ∈ sha (strBytes verifier), b < 256) →
      (∀ b ∈ sha (strBytes verifier2), b < 256) →
      sha (strBytes verifier) ≠ sha (strBytes verifier2) →
      challenge ≠ challenge2) := by
  have hv : verifier = base64urlEncode pkceBytes :=
    (congrArg Prod.fst hgen).symm
  have hc0 : challenge =
      base64urlEncode (sha (strBytes (base64urlEncode pkceBytes))) :=
    (congrArg Prod.snd hgen).symm
  have hc : challenge = base64urlEncode (sha (strBytes verifier)) := by
    rw [hv]
    exact hc0
  refine ⟨hv, hc, ?_, ?_, ?_, ?_, ?_⟩
  · rw [hv]
    show (base64urlEncodeChars pkceBytes).length = 43
    rw [base64urlEncodeChars_length, hp32]
    decide
  · intro hPKCE hkey
    exact codeChallenge_mem_buildAuthParams config challenge state hPKCE hkey
  · intro hnot kv hkv heq
    exact hnot (heq ▸ buildAuthParams_values config challenge state kv hkv)
  · intro b2 hb1 hb2 hne heq
    exact hne (hexEncode_inj stateBytes b2 hb1 hb2 (hstate.symm.trans heq))
  · intro p2 v2 c2 hgen2 hs1 hs2 hne heq
    have hv2 : v2 = base64urlEncode p2 := (congrArg Prod.fst hgen2).symm
    have hc20 : c2 =
        base64urlEncode (sha (strBytes (base64urlEncode p2))) :=
      (congrArg Prod.snd hgen2).symm
    have hc2 : c2 = base64urlEncode (sha (strBytes v2)) := by
      rw [hv2]
      exact hc20
    rw [hc, hc2] at heq
    exact hne (base64urlEncode_inj _ _ hs1 hs2 heq)

/-- Witness for C7: a concrete flow over a fixed digest function, the codex
provider configuration, and the byte lists 0..31 (PKCE) and 0..15 (state). -/
theorem pkce_flow_properties_witness :
    (let sha : List Nat → List Nat := fun l => (l ++ List.replicate 32 0).take 32
     let pk := generatePKCE sha (List.range 32)
     pk.1 = base64urlEncode (List.range 32) ∧
     pk.2 = base64urlEncode (sha (strBytes pk.1)) ∧
     pk.1.length = 43 ∧
     ("code_challenge", pk.2) ∈
       buildAuthParams CODEX_OAUTH pk.2 (stateToken (List.range 16)) ∧
     (∀ kv ∈ buildAuthParams CODEX_OAUTH pk.2 (stateToken (List.range 16)),
       kv.2 ≠ pk.1) ∧
     stateToken (List.range 16) ≠ stateToken (List.replicate 16 0) ∧
     pk.2 ≠ (generatePKCE sha (List.replicate 32 0)).2) := by
  intro sha pk
  obtain ⟨h1, h2, h3, h4, h5, h6, h7⟩ :=
    pkce_flow_properties sha CODEX_OAUTH (List.range 32) (List.range 16)
      pk.1 pk.2 (stateToken (List.range 16)) (by decide) rfl rfl
  refine ⟨h1, h2, h3, h4 rfl (by decide), h5 (by decide), ?_, ?_⟩
  · exact h6 (List.replicate 16 0) (by decide) (by decide) (by decide)
  · exact h7 (List.replicate 32 0)
      (generatePKCE sha (List.replicate 32 0)).1
      (generatePKCE sha (List.replicate 32 0)).2 rfl
      (by decide) (by decide) (by decide)

end Auth

namespace Proxy

open Auth

/-- Route selection returns the first match: helper for C3. -/
theorem findRoute_append_first (l1 : List ProxyRoute) (r : ProxyRoute)
    (l2 : List ProxyRoute) (model : String)
    (hr : globMatch r.pattern model = true)
    (hl1 : ∀ x ∈ l1, globMatch x.pattern model = false) :
    findRoute (l1 ++ r :: l2) model = some r := by
  induction l1 with
  | nil => exact List.find?_cons_of_pos _ hr
  | cons a as ih =>
      have ha : globMatch a.pattern model = false := hl1 a (List.mem_cons_self a as)
      simp only [List.cons_append, findRoute] at ih ⊢
      rw [List.find?_cons_of_neg]
      · exact ih (fun x hx => hl1 x (List.mem_cons_of_mem a hx))
      · simp [ha]

/-- C3: the gateway selects the first route in configuration order whose glob
pattern matches the request's model name (an absent model field is treated as
the empty string); when no pattern matches, it responds `400` naming the
unmatched model — a `.respond` outcome, so zero upstream calls are made. -/
theorem gateway_routing_firstMatch_noMatch400
    (routes : List ProxyRoute) (tokenFor : AuthProvider → Option StoredTokens)
    (env : String → Option String) (body : RequestBody) :
    ((∀ x ∈ routes, globMatch x.pattern (body.model.getD "") = false) →
      handleRequest routes tokenFor env body =
        .respond 400 ("No route for model: " ++ body.model.getD "")) ∧
    (∀ l1 r l2, routes = l1 ++ r :: l2 →
      globMatch r.pattern (body.model.getD "") = true →
      (∀ x ∈ l1, globMatch x.pattern (body.model.getD "") = false) →
      handleRequest routes tokenFor env body =
        dispatchRoute r tokenFor env body (body.model.getD "")) := by
  constructor
  · intro hall
    have hfind : findRoute routes (body.model.getD "") = none := by
      simp only [findRoute, List.find?_eq_none]
      intro x hx
      simp [hall x hx]
    simp only [handleRequest, hfind]
  · intro l1 r l2 hsplit hr hl1
    have hfind : findRoute routes (body.model.getD "") = some r := by
      rw [hsplit]
      exact findRoute_append_first l1 r l2 _ hr hl1
    simp only [handleRequest, hfind]

/-- Witness for C3: on the default route table, `unknown-model-xyz` yields a
`400` naming the model, and `gpt-5.1-codex-mini` is dispatched to the first
route `gpt-*`. -/
theorem gateway_routing_firstMatch_noMatch400_witness :
    handleRequest defaultRoutes (fun _ => none) (fun _ => none)
      { model := some "unknown-model-xyz" } =
      .respond 400 "No route for model: unknown-model-xyz" ∧
    handleRequest defaultRoutes (fun _ => none) (fun _ => none)
      { model := some "gpt-5.1-codex-mini" } =
      dispatchRoute
        ⟨"gpt-*", ⟨"codex", "https://chatgpt.com/backend-api/codex/responses",
          .codexOauth, none⟩⟩
        (fun _ => none) (fun _ => none) { model := some "gpt-5.1-codex-mini" }
        "gpt-5.1-codex-mini" := by
  constructor
  · exact (gateway_routing_firstMatch_noMatch400 defaultRoutes
      (fun _ => none) (fun _ => none) { model := some "unknown-model-xyz" }).1
      (by decide)
  · exact (gateway_routing_firstMatch_noMatch400 defaultRoutes
      (fun _ => none) (fun _ => none) { model := some "gpt-5.1-codex-mini" }).2
      [] _ _ rfl (by decide) (by decide)

/-- C6: on a selected route whose credential is missing, the gateway responds
`401` — with the remediation message naming the login command for each
`*-oauth` scheme, or naming the missing environment variable for `api-key` —
and the outcome is a `.respond`, so no upstream request is made. -/
theorem gateway_missingCredential_401
    (routes : List ProxyRoute) (tokenFor : AuthProvider → Option StoredTokens)
    (env : String → Option String) (body : RequestBody) (route : ProxyRoute)
    (hroute : findRoute routes (body.model.getD "") = some route) :
    (route.backend.auth = .codexOauth → tokenFor .codex = none →
      handleRequest routes tokenFor env body =
        .respond 401 "Not authenticated. Run: vibepity onboard") ∧
    (route.backend.auth = .claudeOauth → tokenFor .claude = none →
      handleRequest routes tokenFor env body =
        .respond 401 "Claude not authenticated. Run: vibepity auth login claude") ∧
    (route.backend.auth = .geminiOauth → tokenFor .gemini = none →
      handleRequest routes tokenFor env body =
        .respond 401 "Gemini not authenticated. Run: vibepity auth login gemini") ∧
    (∀ v, route.backend.auth = .apiKey → route.backend.apiKeyEnv = some v →
      env v = none →
      handleRequest routes tokenFor env body =
        .respond 401 ("API key not set: " ++ v)) := by
  refine ⟨?_, ?_, ?_, ?_⟩
  · intro hauth htok
    simp [handleRequest, hroute, dispatchRoute, hauth, htok]
  · intro hauth htok
    simp [handleRequest, hroute, dispatchRoute, hauth, htok]
  · intro hauth htok
    simp [handleRequest, hroute, dispatchRoute, hauth, htok]
  · intro v hauth henv hmiss
    by_cases hv : v = ""
    · subst hv
      simp [handleRequest, hroute, dispatchRoute, hauth, henv, jsTruthy, jsShow]
    · simp [handleRequest, hroute, dispatchRoute, hauth, henv, hmiss, jsTruthy,
        jsShow, hv]

/-- Witness for C6: on the default routes with no credentials and an empty
environment, an `api-key` route names its variable and a `claude-oauth` route
names the login command. -/
theorem gateway_missingCredential_401_witness :
    handleRequest defaultRoutes (fun _ => none) (fun _ => none)
      { model := some "openai/gpt-4o" } =
      .respond 401 "API key not set: OPENAI_API_KEY" ∧
    handleRequest defaultRoutes (fun _ => none) (fun _ => none)
      { model := some "claude-sonnet-4-6" } =
      .respond 401 "Claude not authenticated. Run: vibepity auth login claude" := by
  constructor
  · exact (gateway_missingCredential_401 defaultRoutes (fun _ => none)
      (fun _ => none) { model := some "openai/gpt-4o" } _ rfl).2.2.2
      "OPENAI_API_KEY" rfl rfl rfl
  · exact (gateway_missingCredential_401 defaultRoutes (fun _ => none)
      (fun _ => none) { model := some "claude-sonnet-4-6" } _ rfl).2.1 rfl rfl

/-- C4: a request routed to a `codex-oauth` backend with a valid credential
and a `messages` array (and no pre-existing `instructions` field — the
canonical request shape) is forwarded with `Authorization: Bearer
<access_token>` and a body with `stream = true`, `store = false`, no
`messages` field, and `reasoning` defaulted to `{summary: "auto"}` when it was
absent; a system-role message's content becomes top-level `instructions` with
the remaining messages as `input`, and with no system message `messages` is
assigned directly to `input`. -/
theorem gateway_codex_transform
    (routes : List ProxyRoute) (tokenFor : AuthProvider → Option StoredTokens)
    (env : String → Option String) (body : RequestBody) (route : ProxyRoute)
    (tokens : StoredTokens) (msgs : List ChatMessage)
    (hroute : findRoute routes (body.model.getD "") = some route)
    (hauth : route.backend.auth = .codexOauth)
    (htok : tokenFor .codex = some tokens)
    (hmsgs : body.messages = some msgs)
    (hinstr : body.instructions = none) :
    ∃ headers newBody,
      handleRequest routes tokenFor env body =
        .forward route.backend.url headers newBody ∧
      ("Authorization", "Bearer " ++ tokens.access_token) ∈ headers ∧
      newBody.stream = some true ∧
      newBody.store = some false ∧
      newBody.messages = none ∧
      (body.reasoning = none → newBody.reasoning = some ⟨some "auto"⟩) ∧
      (∀ sysMsg, msgs.find? (fun m => m.role = "system") = some sysMsg →
        newBody.instructions = some sysMsg.content ∧
        newBody.input = some (msgs.filter (fun m => m.role ≠ "system"))) ∧
      (msgs.find? (fun m => m.role = "system") = none →
        newBody.input = some msgs) := by
  rcases hfind : msgs.find? (fun m => m.role = "system") with _ | sysMsg
  · refine ⟨[("Content-Type", "application/json"),
      ("User-Agent", "vibepity-proxy/0.1.0"),
      ("Authorization", "Bearer " ++ tokens.access_token)],
      { body with stream := some true, input := some msgs, messages := none,
                  store := some false,
                  reasoning := some (body.reasoning.getD ⟨some "auto"⟩) },
      ?_, by simp, rfl, rfl, rfl, ?_, ?_, ?_⟩
    · simp [handleRequest, hroute, dispatchRoute, hauth, htok, hmsgs, hinstr,
        hfind, jsTruthy]
    · intro h
      simp [h]
    · intro s hs
      rw [hfind] at hs
      exact Option.noConfusion hs
    · intro _
      rfl
  · refine ⟨[("Content-Type", "application/json"),
      ("User-Agent", "vibepity-proxy/0.1.0"),
      ("Authorization", "Bearer " ++ tokens.access_token)],
      { body with stream := some true,
                  instructions := some sysMsg.content,
                  input := some (msgs.filter (fun m => m.role ≠ "system")),
                  messages := none, store := some false,
                  reasoning := some (body.reasoning.getD ⟨some "auto"⟩) },
      ?_, by simp, rfl, rfl, rfl, ?_, ?_, ?_⟩
    · simp [handleRequest, hroute, dispatchRoute, hauth, htok, hmsgs, hinstr,
        hfind, jsTruthy]
    · intro h
      simp [h]
    · intro s hs
      rw [hfind] at hs
      cases hs
      exact ⟨rfl, rfl⟩
    · intro h
      rw [hfind] at h
      exact Option.noConfusion h

/-- Witness for C4: `gpt-5.1-codex-mini` on the default `gpt-*` route with a
codex credential and a system message. -/
theorem gateway_codex_transform_witness :
    ∃ headers newBody,
      handleRequest defaultRoutes
        (fun _ => some
          { access_token := "AT", expires_at := 2000000,
            token_type := "Bearer", obtained_at := "iso" })
        (fun _ => none)
        { model := some "gpt-5.1-codex-mini",
          messages := some [⟨"system", "be nice"⟩, ⟨"user", "hi"⟩] } =
        .forward "https://chatgpt.com/backend-api/codex/responses"
          headers newBody ∧
      ("Authorization", "Bearer AT") ∈ headers ∧
      newBody.stream = some true ∧
      newBody.store = some false ∧
      newBody.messages = none ∧
      newBody.instructions = some "be nice" ∧
      newBody.input = some [⟨"user", "hi"⟩] ∧
      newBody.reasoning = some ⟨some "auto"⟩ := by
  obtain ⟨headers, newBody, h1, h2, h3, h4, h5, h6, h7, -⟩ :=
    gateway_codex_transform defaultRoutes
      (fun _ => some
        { access_token := "AT", expires_at := 2000000,
          token_type := "Bearer", obtained_at := "iso" })
      (fun _ => none)
      { model := some "gpt-5.1-codex-mini",
        messages := some [⟨"system", "be nice"⟩, ⟨"user", "hi"⟩] }
      _ _ [⟨"system", "be nice"⟩, ⟨"user", "hi"⟩] rfl rfl rfl rfl rfl
  obtain ⟨h8, h9⟩ := h7 ⟨"system", "be nice"⟩ rfl
  exact ⟨headers, newBody, h1, h2, h3, h4, h5, h8, by rw [h9]; rfl, h6 rfl⟩

/-- C5: a request routed to a `claude-oauth` backend with a valid credential
and a `messages` array is forwarded with an `x-api-key` header equal to the
access token and the fixed `anthropic-version` header; a system-role
message's content is hoisted to top-level `system`; the remaining non-system
messages are kept as `messages` with the system→user role coercion applied to
each; and `max_tokens` defaults to 4096 when unset. -/
theorem gateway_claude_transform
    (routes : List ProxyRoute) (tokenFor : AuthProvider → Option StoredTokens)
    (env : String → Option String) (body : RequestBody) (route : ProxyRoute)
    (tokens : StoredTokens) (msgs : List ChatMessage)
    (hroute : findRoute routes (body.model.getD "") = some route)
    (hauth : route.backend.auth = .claudeOauth)
    (htok : tokenFor .claude = some tokens)
    (hmsgs : body.messages = some msgs) :
    ∃ headers newBody,
      handleRequest routes tokenFor env body =
        .forward route.backend.url headers newBody ∧
      ("x-api-key", tokens.access_token) ∈ headers ∧
      ("anthropic-version", "2024-01-01") ∈ headers ∧
      (∀ sysMsg, msgs.find? (fun m => m.role = "system") = some sysMsg →
        newBody.system = some sysMsg.content) ∧
      newBody.messages = some ((msgs.filter (fun m => m.role ≠ "system")).map
        (fun m => ⟨if m.role = "system" then "user" else m.role, m.content⟩)) ∧
      newBody.max_tokens = some (body.max_tokens.getD 4096) := by
  rcases hfind : msgs.find? (fun m => m.role = "system") with _ | sysMsg
  · refine ⟨[("Content-Type", "application/json"),
      ("User-Agent", "vibepity-proxy/0.1.0"),
      ("x-api-key", tokens.access_token), ("anthropic-version", "2024-01-01")],
      { body with
          messages := some ((msgs.filter (fun m => m.role ≠ "system")).map
            (fun m => ⟨if m.role = "system" then "user" else m.role, m.content⟩)),
          max_tokens := some (body.max_tokens.getD 4096) },
      ?_, by simp, by simp, ?_, rfl, rfl⟩
    · simp [handleRequest, hroute, dispatchRoute, hauth, htok, hmsgs, hfind]
    · intro s hs
      rw [hfind] at hs
      exact Option.noConfusion hs
  · refine ⟨[("Content-Type", "application/json"),
      ("User-Agent", "vibepity-proxy/0.1.0"),
      ("x-api-key", tokens.access_token), ("anthropic-version", "2024-01-01")],
      { body with
          system := some sysMsg.content,
          messages := some ((msgs.filter (fun m => m.role ≠ "system")).map
            (fun m => ⟨if m.role = "system" then "user" else m.role, m.content⟩)),
          max_tokens := some (body.max_tokens.getD 4096) },
      ?_, by simp, by simp, ?_, rfl, rfl⟩
    · simp [handleRequest, hroute, dispatchRoute, hauth, htok, hmsgs, hfind]
    · intro s hs
      rw [hfind] at hs
      cases hs
      rfl

/-- Witness for C5: `claude-sonnet-4-6` on the default `claude-*` route with a
claude credential and a system message. -/
theorem gateway_claude_transform_witness :
    ∃ headers newBody,
      handleRequest defaultRoutes
        (fun _ => some
          { access_token := "AT", expires_at := 2000000,
            token_type := "Bearer", obtained_at := "iso" })
        (fun _ => none)
        { model := some "claude-sonnet-4-6",
          messages := some [⟨"system", "be nice"⟩, ⟨"user", "hi"⟩] } =
        .forward "https://api.anthropic.com/v1/messages" headers newBody ∧
      ("x-api-key", "AT") ∈ headers ∧
      ("anthropic-version", "2024-01-01") ∈ headers ∧
      newBody.system = some "be nice" ∧
      newBody.messages = some [⟨"user", "hi"⟩] ∧
      newBody.max_tokens = some 4096 := by
  obtain ⟨headers, newBody, h1, h2, h3, h4, h5, h6⟩ :=
    gateway_claude_transform defaultRoutes
      (fun _ => some
        { access_token := "AT", expires_at := 2000000,
          token_type := "Bearer", obtained_at := "iso" })
      (fun _ => none)
      { model := some "claude-sonnet-4-6",
        messages := some [⟨"system", "be nice"⟩, ⟨"user", "hi"⟩] }
      _ _ [⟨"system", "be nice"⟩, ⟨"user", "hi"⟩] rfl rfl rfl rfl
  exact ⟨headers, newBody, h1, h2, h3, h4 ⟨"system", "be nice"⟩ rfl,
    by rw [h5]; rfl, by rw [h6]; rfl⟩

/-- C9 (counterexample): with no tracked pid anywhere (no in-process child
handle, no pid file) yet a succeeding `/health` probe (status 200 — e.g. a
gateway started by hand), `start()` is not a no-op: it proceeds to spawn the
built-in proxy. `start()` short-circuits on the pid-based `status()` only and
never consults the health probe. -/
theorem supervisor_start_despiteHealth_counterexample :
    healthCheck (some 200) = true ∧
    (startDecision (fun _ => false) none ⟨none, none⟩).1 =
      StartAction.spawnBuiltin := by
  exact ⟨rfl, rfl⟩

/-- C9 (amended): `start()` is a no-op — it returns the current status,
spawns nothing and leaves the supervisor state unchanged — exactly when the
pid-based `status()` probe reports the tracked process alive; the
short-circuit never probes `/health`. -/
theorem supervisor_start_noop_whenPidAlive
    (alive : Nat → Bool) (cliProxyPath : Option String) (st : SupervisorState)
    (hrun : (statusOf alive st).1.running = true) :
    startDecision alive cliProxyPath st =
      (StartAction.noop (statusOf alive st).1, st) := by
  unfold statusOf at hrun
  unfold startDecision statusOf
  cases hp : st.procPid with
  | some p =>
      simp only [hp] at hrun ⊢
      simp [hrun]
  | none =>
      cases hf : st.pidFile with
      | some p =>
          simp only [hp, hf] at hrun ⊢
          simp [hrun]
      | none =>
          simp only [hp, hf] at hrun
          exact absurd hrun (by simp)

/-- Witness for C9 (amended): a tracked pid that the OS reports alive. -/
theorem supervisor_start_noop_whenPidAlive_witness :
    startDecision (fun _ => true) none ⟨some 42, none⟩ =
      (StartAction.noop ⟨true, some 42⟩, ⟨some 42, none⟩) :=
  supervisor_start_noop_whenPidAlive (fun _ => true) none ⟨some 42, none⟩ rfl

end Proxy

end VibeClaw
